import Mathlib

/-
Shallow embedding of src/GlacierArchiveDelete.py.

The program drains AWS Glacier vaults: for each vault name it checks
existence, submits an asynchronous inventory-retrieval job, polls the job
until completion, fetches and decodes the inventory payload, then deletes
each listed archive one by one, counting successes and failures, sleeping
one second after every 100 processed archives, and finally reports elapsed
time and throughput.

External effects (boto3 Glacier API calls) are modelled as an explicit
trace of `ApiCall` values; external outcomes (whether describe_vault
succeeds, whether initiate_job is accepted, how many polls a job needs,
whether the payload decodes, which per-archive deletes succeed) are
supplied by a `VaultEnv` record, so every function is executable.
-/

namespace GlacierArchiveDelete

/-- One call against the Glacier service.  `deleteVault` is the API
operation that would remove the vault itself; the source file never
issues it, but it is part of the modelled service interface. -/
inductive ApiCall where
  | describeVault (vault : String)
  | initiateJob (vault : String)
  | describeJob (vault : String) (jobId : String)
  | getJobOutput (vault : String) (jobId : String)
  | deleteArchive (vault : String) (archiveId : String)
  | deleteVault (vault : String)
deriving DecidableEq, Repr

/-- Outcome of `glacier_client.describe_vault`: success, or a botocore
ClientError carrying an error code (source lines 124-131 branch on the
code). Non-ClientError exceptions are not raised by describe_vault in
this API model, matching the single except clause of the source. -/
inductive DescribeVaultResult where
  | ok
  | clientError (code : String)
deriving DecidableEq, Repr

/-- Source lines 113-131.  Returns the boolean of the source together
with the list of log lines it emits (its only side effect).  A
ClientError with code ResourceNotFoundException returns False with no
error log; any other ClientError code logs an error line and returns
False; a successful describe_vault returns True. -/
def check_vault_exists (vault_name : String) (res : DescribeVaultResult) :
    Bool × List String :=
  match res with
  | .ok => (true, [])
  | .clientError code =>
    if code = "ResourceNotFoundException" then
      (false, [])
    else
      (false, ["Error checking vault existence for " ++ vault_name])

/-- State of the deletion loop, source lines 62-81: the three counters
of line 62, the delete calls issued so far (in order), the number of
progress log lines (line 76-77) and the number of one-second throttling
sleeps (line 80-81). -/
structure DelState where
  archive_idx : Nat
  success_count : Nat
  failure_count : Nat
  calls : List ApiCall
  progress_logs : Nat
  sleeps : Nat
deriving DecidableEq, Repr

/-- One iteration of the for-loop at source lines 63-81, for the archive
at position `s.archive_idx`.  `delete_ok i` tells whether the delete
request for the archive processed at index `i` succeeds (try branch,
line 67-69) or raises (except branch, lines 70-72).  The delete request
itself is issued in both cases.  `archive_idx` is incremented at line
73, and the two modulo checks at lines 76 and 80 test the incremented
value. -/
def delStep (vault_name : String) (delete_ok : Nat → Bool)
    (s : DelState) (archive_id : String) : DelState :=
  let idx1 := s.archive_idx + 1
  { archive_idx := idx1
    success_count := s.success_count + (if delete_ok s.archive_idx then 1 else 0)
    failure_count := s.failure_count + (if delete_ok s.archive_idx then 0 else 1)
    calls := s.calls ++ [ApiCall.deleteArchive vault_name archive_id]
    progress_logs := s.progress_logs + (if idx1 % 10000 = 0 then 1 else 0)
    sleeps := s.sleeps + (if idx1 % 100 = 0 then 1 else 0) }

/-- The whole deletion loop (source lines 62-81) run over the decoded
ArchiveList, starting from the zeroed counters of line 62. -/
def runDeletionLoop (vault_name : String) (delete_ok : Nat → Bool)
    (archive_list : List String) : DelState :=
  archive_list.foldl (delStep vault_name delete_ok) ⟨0, 0, 0, [], 0, 0⟩

/-- Number of failed delete attempts among the `n` consecutive archive
indices starting at `start`, under success pattern `delete_ok`. -/
def countFailures (delete_ok : Nat → Bool) (start n : Nat) : Nat :=
  match n with
  | 0 => 0
  | m + 1 => (if delete_ok start then 0 else 1) + countFailures delete_ok (start + 1) m

/-- Number of successful delete attempts among the `n` consecutive
archive indices starting at `start`. -/
def countSuccesses (delete_ok : Nat → Bool) (start n : Nat) : Nat :=
  match n with
  | 0 => 0
  | m + 1 => (if delete_ok start then 1 else 0) + countSuccesses delete_ok (start + 1) m

/-- How the polling loop of source lines 36-44 terminates: either the
job reports Completed after `n` incomplete describe_job polls, or the
describe_job call raises after `n` incomplete polls (transient errors
are not caught there and propagate, spec section 4.2). -/
inductive PollOutcome where
  | completesAfter (n : Nat)
  | errorAfter (n : Nat) (msg : String)
deriving DecidableEq, Repr

/-- The describe_job calls issued by the polling loop: one per poll,
including the final poll that completes or raises. -/
def pollCalls (vault_name jobId : String) : PollOutcome → List ApiCall
  | .completesAfter n => List.replicate (n + 1) (ApiCall.describeJob vault_name jobId)
  | .errorAfter n _ => List.replicate (n + 1) (ApiCall.describeJob vault_name jobId)

/-- Whether the polling loop exits normally or propagates an error. -/
def pollResult : PollOutcome → Except String Unit
  | .completesAfter _ => .ok ()
  | .errorAfter _ msg => .error msg

/-- External behaviour of the Glacier service for one vault during one
drain: result of describe_vault; result of initiate_job (job id, or a
rejection that raises, line 29-33); how polling ends; result of
fetching, reading, decoding and indexing the inventory payload (lines
48-55: get_job_output, body.read, json.loads, the ArchiveList lookup -
an ok value is the ordered list of ArchiveId strings); and the success
pattern of the individual archive deletes. -/
structure VaultEnv where
  describe_vault : DescribeVaultResult
  initiate_job : Except String String
  poll : PollOutcome
  get_job_output : Except String (List String)
  delete_ok : Nat → Bool

/-- Source lines 9-92, `remove_all_archives_and_the_vault`, as a trace
of API calls plus the exception outcome (`.error msg` when an uncaught
exception propagates out of the function, `.ok ()` when it returns
normally).  The early return at lines 24-26 (vault absent) is a normal
return after only the describe_vault call of the existence check. -/
def remove_all_archives_and_the_vault (vault_name : String) (env : VaultEnv) :
    List ApiCall × Except String Unit :=
  let checkCall := ApiCall.describeVault vault_name
  if ! (check_vault_exists vault_name env.describe_vault).1 then
    ([checkCall], .ok ())
  else
    match env.initiate_job with
    | .error e => ([checkCall, ApiCall.initiateJob vault_name], .error e)
    | .ok job_id =>
      let pcs := pollCalls vault_name job_id env.poll
      match pollResult env.poll with
      | .error e => ([checkCall, ApiCall.initiateJob vault_name] ++ pcs, .error e)
      | .ok _ =>
        match env.get_job_output with
        | .error e =>
          ([checkCall, ApiCall.initiateJob vault_name] ++ pcs
            ++ [ApiCall.getJobOutput vault_name job_id], .error e)
        | .ok archive_list =>
          let ds := runDeletionLoop vault_name env.delete_ok archive_list
          ([checkCall, ApiCall.initiateJob vault_name] ++ pcs
            ++ [ApiCall.getJobOutput vault_name job_id] ++ ds.calls, .ok ())

/-- The per-vault loop of the main block, source lines 191-193: each
vault is processed in turn by `remove_all_archives_and_the_vault`.  The
surrounding try at lines 186-195 catches only FileNotFoundError (from
opening the vault-list file), so an exception escaping a drain
propagates out of the for-loop and ends the run: the trace stops at the
failing vault and the remaining vaults are never processed. -/
def main_vault_loop : List (String × VaultEnv) → List ApiCall × Except String Unit
  | [] => ([], .ok ())
  | (vault_name, env) :: rest =>
    match remove_all_archives_and_the_vault vault_name env with
    | (calls, .error e) => (calls, .error e)
    | (calls, .ok _) =>
      let r2 := main_vault_loop rest
      (calls ++ r2.1, r2.2)

/-- Source line 105: the deletion rate computed by `log_elapsed_time`.
`elapsed_time.total_seconds()` is modelled as a rational; the guard is a
strict comparison with zero, and the fallback value is 0.0. -/
def archives_per_second (archive_count : Nat) (elapsed_total_seconds : ℚ) : ℚ :=
  if elapsed_total_seconds > 0 then (archive_count : ℚ) / elapsed_total_seconds else 0

/-- A concrete environment: the vault exists, the inventory job is
accepted and completes on the first poll, the payload decodes to two
archives, and every delete succeeds. -/
def envTwoArchives : VaultEnv :=
  { describe_vault := .ok
    initiate_job := .ok "job-1"
    poll := .completesAfter 0
    get_job_output := .ok ["a1", "a2"]
    delete_ok := fun _ => true }

/-- A concrete environment whose describe_vault reports the vault
missing. -/
def envAbsent : VaultEnv :=
  { describe_vault := .clientError "ResourceNotFoundException"
    initiate_job := .ok "job-1"
    poll := .completesAfter 0
    get_job_output := .ok ["a1"]
    delete_ok := fun _ => true }

/-- A concrete environment whose initiate_job request is rejected (the
call raises, source line 29). -/
def envBadSubmit : VaultEnv :=
  { describe_vault := .ok
    initiate_job := .error "initiate_job rejected"
    poll := .completesAfter 0
    get_job_output := .ok ["a1"]
    delete_ok := fun _ => true }

/-- A second healthy vault environment, for a two-vault run. -/
def envGood2 : VaultEnv :=
  { describe_vault := .ok
    initiate_job := .ok "job-2"
    poll := .completesAfter 0
    get_job_output := .ok ["b1"]
    delete_ok := fun _ => true }

lemma foldl_delStep_archive_idx (v : String) (ok : Nat → Bool) (l : List String)
    (s : DelState) :
    (l.foldl (delStep v ok) s).archive_idx = s.archive_idx + l.length := by
  induction l generalizing s with
  | nil => simp
  | cons a t ih =>
    rw [List.foldl_cons, ih]
    simp [delStep]
    omega

lemma foldl_delStep_counts (v : String) (ok : Nat → Bool) (l : List String)
    (s : DelState) :
    (l.foldl (delStep v ok) s).success_count + (l.foldl (delStep v ok) s).failure_count
      = s.success_count + s.failure_count + l.length := by
  induction l generalizing s with
  | nil => simp
  | cons a t ih =>
    rw [List.foldl_cons, ih]
    simp [delStep]
    split <;> omega

lemma foldl_delStep_calls (v : String) (ok : Nat → Bool) (l : List String)
    (s : DelState) :
    (l.foldl (delStep v ok) s).calls = s.calls ++ l.map (ApiCall.deleteArchive v) := by
  induction l generalizing s with
  | nil => simp
  | cons a t ih =>
    rw [List.foldl_cons, ih]
    simp [delStep]

lemma foldl_delStep_failure (v : String) (ok : Nat → Bool) (l : List String)
    (s : DelState) :
    (l.foldl (delStep v ok) s).failure_count
      = s.failure_count + countFailures ok s.archive_idx l.length := by
  induction l generalizing s with
  | nil => simp [countFailures]
  | cons a t ih =>
    rw [List.foldl_cons, ih]
    simp [delStep, countFailures]
    split <;> omega

lemma foldl_delStep_success (v : String) (ok : Nat → Bool) (l : List String)
    (s : DelState) :
    (l.foldl (delStep v ok) s).success_count
      = s.success_count + countSuccesses ok s.archive_idx l.length := by
  induction l generalizing s with
  | nil => simp [countSuccesses]
  | cons a t ih =>
    rw [List.foldl_cons, ih]
    simp [delStep, countSuccesses]
    split <;> omega

lemma foldl_delStep_sleeps (v : String) (ok : Nat → Bool) (l : List String)
    (s : DelState) :
    (l.foldl (delStep v ok) s).sleeps + s.archive_idx / 100
      = s.sleeps + (s.archive_idx + l.length) / 100 := by
  induction l generalizing s with
  | nil => simp
  | cons a t ih =>
    rw [List.foldl_cons]
    have h1 := ih (delStep v ok s a)
    by_cases hm : (s.archive_idx + 1) % 100 = 0 <;>
      simp [delStep, hm] at h1 ⊢ <;> omega

lemma deleteVault_not_mem_pollCalls (vn jid w : String) (p : PollOutcome) :
    ApiCall.deleteVault w ∉ pollCalls vn jid p := by
  cases p <;> simp [pollCalls]

lemma deleteVault_not_mem_drain (vn : String) (env : VaultEnv) (w : String) :
    ApiCall.deleteVault w ∉ (remove_all_archives_and_the_vault vn env).1 := by
  unfold remove_all_archives_and_the_vault
  cases h : (check_vault_exists vn env.describe_vault).1 with
  | false => simp [h]
  | true =>
    simp only [h, Bool.not_true]
    cases hij : env.initiate_job with
    | error e => simp
    | ok jid =>
      cases hp : env.poll with
      | errorAfter n msg => simp [pollResult, pollCalls, List.mem_replicate]
      | completesAfter n =>
        cases hg : env.get_job_output with
        | error e => simp [pollResult, pollCalls, List.mem_replicate]
        | ok al =>
          simp [pollResult, pollCalls, List.mem_replicate,
            runDeletionLoop, foldl_delStep_calls]

/-- Claim C2: for every archive-id sequence and every success pattern,
success_count + failure_count equals archive_idx after every iteration
of the deletion loop (state after processing the first i archives), and
equals N when the loop over all N archives finishes. -/
theorem C2_counter_invariant (v : String) (ok : Nat → Bool) (l : List String) :
    (∀ i : Nat,
      (runDeletionLoop v ok (l.take i)).success_count
        + (runDeletionLoop v ok (l.take i)).failure_count
        = (runDeletionLoop v ok (l.take i)).archive_idx)
    ∧ (runDeletionLoop v ok l).success_count + (runDeletionLoop v ok l).failure_count
        = l.length := by
  constructor
  · intro i
    simp [runDeletionLoop, foldl_delStep_counts, foldl_delStep_archive_idx]
  · simp [runDeletionLoop, foldl_delStep_counts]

/-- Claim C3: a failing delete is counted as exactly one failure and the
loop moves on: for every success pattern, all N archives are processed
(archive_idx = N, one delete request per archive), failure_count counts
exactly the failing attempts and success_count the succeeding ones. -/
theorem C3_failures_absorbed (v : String) (ok : Nat → Bool) (l : List String) :
    (runDeletionLoop v ok l).archive_idx = l.length
    ∧ (runDeletionLoop v ok l).calls.length = l.length
    ∧ (runDeletionLoop v ok l).failure_count = countFailures ok 0 l.length
    ∧ (runDeletionLoop v ok l).success_count = countSuccesses ok 0 l.length := by
  refine ⟨?_, ?_, ?_, ?_⟩ <;>
    simp [runDeletionLoop, foldl_delStep_archive_idx, foldl_delStep_calls,
      foldl_delStep_failure, foldl_delStep_success]

/-- Claim C6: the deletion engine issues exactly one delete call per
inventory entry, in inventory order: the call trace is the ArchiveList
mapped to delete requests.  In particular a payload listing a1, a2, a3
yields exactly the three calls delete a1, delete a2, delete a3. -/
theorem C6_deletes_in_inventory_order (v : String) (ok : Nat → Bool) (l : List String) :
    (runDeletionLoop v ok l).calls = l.map (ApiCall.deleteArchive v)
    ∧ (runDeletionLoop "vault" (fun _ => true) ["a1", "a2", "a3"]).calls
      = [ApiCall.deleteArchive "vault" "a1", ApiCall.deleteArchive "vault" "a2",
         ApiCall.deleteArchive "vault" "a3"] := by
  constructor
  · simp [runDeletionLoop, foldl_delStep_calls]
  · rfl

/-- Claim C9: the one-second throttling sleep fires exactly floor(N/100)
times for N processed archives, whatever the success pattern. -/
theorem C9_sleep_every_100 (v : String) (ok : Nat → Bool) (l : List String) :
    (runDeletionLoop v ok l).sleeps = l.length / 100 := by
  have h := foldl_delStep_sleeps v ok l ⟨0, 0, 0, [], 0, 0⟩
  simpa [runDeletionLoop] using h

/-- Claim C1 evaluation: at a vault that exists, whose inventory lists
two archives and whose operations all succeed, the drain issues the two
archive deletes and returns normally, but the trace contains no
delete-vault call; moreover no environment whatsoever makes
remove_all_archives_and_the_vault issue a delete-vault call.  This
contradicts the claim (and the docstring of the source function) that
the vault itself is deleted once empty. -/
theorem C1_vault_itself_never_deleted :
    remove_all_archives_and_the_vault "v" envTwoArchives
      = ([ApiCall.describeVault "v", ApiCall.initiateJob "v",
          ApiCall.describeJob "v" "job-1", ApiCall.getJobOutput "v" "job-1",
          ApiCall.deleteArchive "v" "a1", ApiCall.deleteArchive "v" "a2"], .ok ())
    ∧ ApiCall.deleteVault "v" ∉ (remove_all_archives_and_the_vault "v" envTwoArchives).1
    ∧ ∀ (vn : String) (env : VaultEnv) (w : String),
        ApiCall.deleteVault w ∉ (remove_all_archives_and_the_vault vn env).1 := by
  refine ⟨rfl, ?_, fun vn env w => deleteVault_not_mem_drain vn env w⟩
  exact deleteVault_not_mem_drain "v" envTwoArchives "v"

/-- Claim C5: when the existence check comes back false, the drain
performs nothing beyond that single describe_vault call: no job
submission, no polling, no payload fetch, no deletes, and it returns
normally. -/
theorem C5_absent_vault_is_noop (v : String) (env : VaultEnv)
    (h : (check_vault_exists v env.describe_vault).1 = false) :
    remove_all_archives_and_the_vault v env = ([ApiCall.describeVault v], .ok ()) := by
  unfold remove_all_archives_and_the_vault
  simp [h]

/-- Witness for C5 at a concrete absent vault. -/
theorem C5_absent_vault_is_noop_witness :
    remove_all_archives_and_the_vault "gone" envAbsent
      = ([ApiCall.describeVault "gone"], .ok ()) :=
  C5_absent_vault_is_noop "gone" envAbsent rfl

/-- Claim C7: the existence check returns true when describe_vault
succeeds; false with no error log when it fails with the
ResourceNotFoundException error code; and false together with an error
log line for any other error code.  Its only output is this pair, so it
has no side effect beyond logging. -/
theorem C7_existence_check_boolean (v : String) :
    check_vault_exists v .ok = (true, [])
    ∧ check_vault_exists v (.clientError "ResourceNotFoundException") = (false, [])
    ∧ ∀ code : String, code ≠ "ResourceNotFoundException" →
        check_vault_exists v (.clientError code)
          = (false, ["Error checking vault existence for " ++ v]) := by
  refine ⟨rfl, by simp [check_vault_exists], fun code hc => ?_⟩
  simp [check_vault_exists, hc]

/-- Witness for C7 at a concrete unexpected error code. -/
theorem C7_existence_check_boolean_witness :
    check_vault_exists "myvault" (.clientError "AccessDeniedException")
      = (false, ["Error checking vault existence for myvault"]) :=
  (C7_existence_check_boolean "myvault").2.2 "AccessDeniedException" (by decide)

/-- Claim C8: the throughput computation is total and returns exactly 0
when the elapsed seconds are zero, and archive_count divided by the
elapsed seconds when they are positive. -/
theorem C8_throughput_division_guard (n : Nat) :
    archives_per_second n 0 = 0
    ∧ ∀ t : ℚ, 0 < t → archives_per_second n t = (n : ℚ) / t := by
  constructor
  · simp [archives_per_second]
  · intro t ht
    simp [archives_per_second, ht]

/-- Witness for C8 at concrete inputs. -/
theorem C8_throughput_division_guard_witness :
    archives_per_second 6 0 = 0 ∧ archives_per_second 6 3 = (6 : ℚ) / 3 :=
  ⟨(C8_throughput_division_guard 6).1,
    (C8_throughput_division_guard 6).2 3 (by norm_num)⟩

/-- Claim C10: the strict greater-than-zero guard also sends every
negative elapsed duration to 0, and consequently the reported rate is
never negative. -/
theorem C10_negative_elapsed_gives_zero :
    (∀ (n : Nat) (t : ℚ), t < 0 → archives_per_second n t = 0)
    ∧ ∀ (n : Nat) (t : ℚ), 0 ≤ archives_per_second n t := by
  constructor
  · intro n t ht
    have hng : ¬ t > 0 := by linarith
    simp [archives_per_second, hng]
  · intro n t
    by_cases h : t > 0
    · simp only [archives_per_second, h, if_true]
      exact div_nonneg (Nat.cast_nonneg n) (le_of_lt h)
    · simp [archives_per_second, h]

/-- Witness for C10 at a concrete negative duration. -/
theorem C10_negative_elapsed_gives_zero_witness :
    archives_per_second 4 (-5) = 0 :=
  C10_negative_elapsed_gives_zero.1 4 (-5) (by norm_num)

/-- Counterexample to claim C4: with two listed vaults, where the first
existing vault suffers an inventory-job submission error, the run stops
at that error and the second vault is never processed (its
describe_vault call never appears in the trace), because the for-loop of
the main block sits inside a try that catches only FileNotFoundError. -/
theorem C4_counterexample_second_vault_skipped :
    main_vault_loop [("v1", envBadSubmit), ("v2", envGood2)]
      = ([ApiCall.describeVault "v1", ApiCall.initiateJob "v1"],
         .error "initiate_job rejected")
    ∧ ApiCall.describeVault "v2"
        ∉ (main_vault_loop [("v1", envBadSubmit), ("v2", envGood2)]).1 := by
  refine ⟨rfl, ?_⟩
  intro hmem
  have h : (main_vault_loop [("v1", envBadSubmit), ("v2", envGood2)]).1
      = [ApiCall.describeVault "v1", ApiCall.initiateJob "v1"] := rfl
  rw [h] at hmem
  simp at hmem

/-- Amended claim C4: when a vault-scoped failure (job submission or
polling error, or failure of the payload fetch/decode) aborts a drain,
the exception propagates out of the per-vault loop uncaught: the run
ends with that error and the remaining vaults in the list are not
processed. -/
theorem C4_vault_error_ends_run (v : String) (env : VaultEnv)
    (rest : List (String × VaultEnv)) (msg : String)
    (h : (remove_all_archives_and_the_vault v env).2 = .error msg) :
    main_vault_loop ((v, env) :: rest)
      = ((remove_all_archives_and_the_vault v env).1, .error msg) := by
  rcases hr : remove_all_archives_and_the_vault v env with ⟨calls, out⟩
  rw [hr] at h
  simp only at h
  subst h
  simp [main_vault_loop, hr]

/-- Witness for the amended C4 at a concrete two-vault run. -/
theorem C4_vault_error_ends_run_witness :
    main_vault_loop [("v1", envBadSubmit), ("v2", envGood2)]
      = ((remove_all_archives_and_the_vault "v1" envBadSubmit).1,
         .error "initiate_job rejected") :=
  C4_vault_error_ends_run "v1" envBadSubmit [("v2", envGood2)]
    "initiate_job rejected" rfl

end GlacierArchiveDelete
